import Mathlib

/-!
Shallow embedding of `api_app/recognition_service.py` from the
APIBackend_RegistroPGC repository (a Django face-recognition attendance
backend), together with theorems settling the frozen claims about it.

External OpenCV capabilities (`cv2.cvtColor`, `detectMultiScale`,
`cv2.resize`, the LBPH recognizer, `cv2.imdecode`) are modelled as
parameters or as small abstract state, exactly at the granularity the
source uses them; everything the repository's own code does (control
flow, registry bookkeeping, dedup state machine, filesystem holding
areas) is transcribed faithfully.
-/

namespace RegistroPGC

/-! ## Basic image types -/

/-- A single-channel (grayscale) pixel matrix, as produced by
`cv2.cvtColor(frame, cv2.COLOR_BGR2GRAY)`. -/
abbrev Mat := List (List Nat)

/-- A BGR colour frame, as produced by `cv2.imdecode(..., IMREAD_COLOR)`. -/
abbrev Frame := List (List (Nat × Nat × Nat))

/-- A face bounding box `(x, y, w, h)` as returned by
`detectMultiScale`. -/
structure Box where
  x : Nat
  y : Nat
  w : Nat
  h : Nat
deriving DecidableEq, Repr

/-- The OpenCV interpolation flag `cv2.INTER_CUBIC`. -/
def INTER_CUBIC : Nat := 2

/-- Numpy slicing `gray[y:y+h, x:x+w]`. -/
def cropMat (m : Mat) (b : Box) : Mat :=
  ((m.drop b.y).take b.h).map (fun row => (row.drop b.x).take b.w)

/-- Type of the external `cv2.resize` capability: matrix, requested
`(width, height)`, interpolation flag. -/
abbrev ResizeFn := Mat → Nat × Nat → Nat → Mat

/-- Type of the external `cv2.cvtColor(·, COLOR_BGR2GRAY)` capability. -/
abbrev CvtFn := Frame → Mat

/-- Type of the external `face_classif.detectMultiScale(gray, 1.3, 5)`
capability. -/
abbrev DetectFn := Mat → List Box

/-- Type of the external `face_recognizer.predict(rostro)` capability:
returns `(label, confianza)` where smaller confianza = stronger match. -/
abbrev PredictFn := Mat → Nat × ℚ

/-- Predicate: `m` is an `h`-row, `w`-column matrix. -/
def isSize (m : Mat) (w h : Nat) : Prop :=
  m.length = h ∧ ∀ row ∈ m, row.length = w

instance (m : Mat) (w h : Nat) : Decidable (isSize m w h) := by
  unfold isSize; infer_instance

/-! ## Normalization pipeline

`reconocer_rostro` (lines 104-106) and `guardar_foto_registro`
(lines 169-171) both run
`rostro = gray[y:y+h, x:x+w]; rostro = cv2.resize(rostro, (150, 150),
interpolation=cv2.INTER_CUBIC)`.
Each call site is transcribed as its own definition so that their
agreement is a theorem, not a definition. -/

/-- Normalization as performed on the recognition path
(`reconocer_rostro`, lines 104-106). -/
def normRecognition (resizeF : ResizeFn) (gray : Mat) (b : Box) : Mat :=
  resizeF (cropMat gray b) (150, 150) INTER_CUBIC

/-- Normalization as performed on the enrollment path
(`guardar_foto_registro`, lines 169-171). -/
def normEnroll (resizeF : ResizeFn) (gray : Mat) (b : Box) : Mat :=
  resizeF (cropMat gray b) (150, 150) INTER_CUBIC

/-! ## Association-list lookup (Python `dict` membership / indexing) -/

/-- Dict lookup: `alookup l k` models Python `l[k]` / `k in l` for a dict
represented as an insertion-ordered association list. -/
def alookup {β : Type} : List (String × β) → String → Option β
  | [], _ => none
  | (k, v) :: rest, key => if k = key then some v else alookup rest key

/-! ## Session / recognition state -/

/-- The dedup bookkeeping: `tiempos_reconocimiento` (first-seen
timestamps) and `estudiantes_reconocidos` (already-registered set). -/
structure SessionState where
  tiempos : List (String × ℚ)
  registrados : List String
deriving DecidableEq, Repr

/-- The two knobs from `settings.RECONOCIMIENTO_CONFIG`. -/
structure Config where
  confianza_threshold : ℚ
  duracion_reconocimiento : ℚ
deriving DecidableEq, Repr

/-- The dict returned by `reconocer_rostro`. -/
inductive RecogResult
  | sin_rostro
  | reconocido (estudiante : String) (confianza : ℚ) (box : Box)
  | desconocido (confianza : ℚ) (box : Box)
deriving DecidableEq, Repr

/-- Recognition: `reconocer_rostro(image_data)` (lines 87-135), taken after decoding:
`frame` is the decoded pixel buffer, `now` the value of `time.time()`.
Returns the result dict, the updated session state and the list of
identities for which `asistencia_service.registrar_asistencia` was
invoked during this call. -/
def reconocer_rostro (cvt : CvtFn) (detect : DetectFn) (predictF : PredictFn)
    (resizeF : ResizeFn) (cfg : Config) (image_paths : List String)
    (sess : SessionState) (now : ℚ) (frame : Frame) :
    RecogResult × SessionState × List String :=
  let gray := cvt frame
  match detect gray with
  | [] => (.sin_rostro, sess, [])
  | b :: _ =>
    let rostro := normRecognition resizeF gray b
    let pr := predictF rostro
    let label := pr.1
    let confianza := pr.2
    if confianza < cfg.confianza_threshold ∧ label < image_paths.length then
      let nombre := image_paths.getD label ""
      let res := RecogResult.reconocido nombre confianza b
      match alookup sess.tiempos nombre with
      | none =>
        (res, { sess with tiempos := sess.tiempos ++ [(nombre, now)] }, [])
      | some t0 =>
        if cfg.duracion_reconocimiento ≤ now - t0 then
          if nombre ∈ sess.registrados then
            (res, sess, [])
          else
            (res, { sess with registrados := sess.registrados ++ [nombre] },
             [nombre])
        else
          (res, sess, [])
    else
      (.desconocido confianza b, sess, [])

/-- Run a sequence of `reconocer_rostro` calls (one session, no reset in
between); returns the final session state and the per-call notifier
invocation lists. -/
def runRecog (cvt : CvtFn) (detect : DetectFn) (predictF : PredictFn)
    (resizeF : ResizeFn) (cfg : Config) (image_paths : List String) :
    SessionState → List (ℚ × Frame) → SessionState × List (List String)
  | sess, [] => (sess, [])
  | sess, (t, f) :: rest =>
    let r := reconocer_rostro cvt detect predictF resizeF cfg image_paths sess t f
    let rest' := runRecog cvt detect predictF resizeF cfg image_paths r.2.1 rest
    (rest'.1, r.2.2 :: rest'.2)

/-! ## Model state and filesystem holding areas -/

/-- Content of a stored image file; `cv2.imread` yields `some img` for a
readable image and `none` (Python `None`) otherwise. -/
abbrev Img := Mat

/-- The `Data/` directory: an ordered list of per-identity holding
directories, each an ordered list of `(filename, readable-content?)`. -/
abbrev FS := List (String × List (String × Option Img))

/-- The LBPH recognizer's opaque learned state: `none` = freshly created
(never trained), `some batch` = the labelled samples folded in so far. -/
abbrev Classifier := Option (List (Img × Nat))

/-- Incremental training call `face_recognizer.update(faces, labels)`: extends learned state;
raises (returns `none` here) when the model has no prior state. -/
def clfUpdate (c : Classifier) (batch : List (Img × Nat)) : Option Classifier :=
  match c with
  | none => none
  | some d => some (some (d ++ batch))

/-- Full training call `face_recognizer.train(faces, labels)`: replaces all learned state. -/
def clfTrain (batch : List (Img × Nat)) : Classifier :=
  some batch

/-- The process-wide mutable model state of `ReconocimientoService`:
identity list, label dict, next label, recognizer, and the persisted
artifact (the last classifier state successfully written to
`MODEL_PATH`). -/
structure ModelState where
  image_paths : List String
  label_dict : List (String × Nat)
  next_label : Nat
  recognizer : Classifier
  artifact : Option Classifier
deriving DecidableEq, Repr

/-- Outcome of a training call: the `{"ok": True, ...}` dict, the
`{"ok": False, "msg": ...}` dict, or an uncaught Python exception. -/
inductive TrainOutcome
  | ok (msg : String) (imagenes : Nat)
  | fail (msg : String)
  | exc
deriving DecidableEq, Repr

/-- Lines 196-199 of `entrenar_incremental`: allocate a label for a new
identity (mutates the registry before any image is loaded). -/
def allocLabel (estudiante : String) (st : ModelState) : ModelState :=
  if (alookup st.label_dict estudiante).isSome then st
  else
    { st with
      label_dict := st.label_dict ++ [(estudiante, st.next_label)],
      image_paths := st.image_paths ++ [estudiante],
      next_label := st.next_label + 1 }

/-- The readable images of a holding directory, in listing order
(the `img is not None` filter of lines 208-214). -/
def incFaces (files : List (String × Option Img)) : List Img :=
  files.filterMap Prod.snd

/-- Lines 229-236: delete the processed (readable) files, then try
`os.rmdir`, which succeeds only if the directory is now empty. -/
def cleanupDir (estudiante : String) (rutas : List String) (fs : FS) : FS :=
  let fs' := fs.map (fun d =>
    if d.1 = estudiante then (d.1, d.2.filter (fun f => decide (f.1 ∉ rutas)))
    else d)
  fs'.filter (fun d => !(d.1 == estudiante && d.2.isEmpty))

/-- Incremental training `entrenar_incremental(estudiante)` (lines 180-244). `writeOkA` and
`writeOkB` are the outcomes of the two `face_recognizer.write` call
sites (line 222 in the `try` block, line 226 in the bare `except`
block); `false` means that write raises. -/
def entrenar_incremental (writeOkA writeOkB : Bool) (estudiante : String)
    (fs : FS) (st : ModelState) : TrainOutcome × ModelState × FS :=
  match alookup fs estudiante with
  | none => (.fail "No existe la carpeta del estudiante", st, fs)
  | some files =>
    let st1 := allocLabel estudiante st
    let label := (alookup st1.label_dict estudiante).getD 0
    let faces_data := incFaces files
    let rutas_procesadas := (files.filter (fun f => f.2.isSome)).map Prod.fst
    if faces_data.isEmpty then
      (.fail "No hay imágenes para entrenar", st1, fs)
    else
      let batch := faces_data.map (fun i => (i, label))
      let tryBlock : Option Classifier :=
        match clfUpdate st1.recognizer batch with
        | some c => if writeOkA then some c else none
        | none => none
      match tryBlock with
      | some c =>
        (.ok "Modelo entrenado" faces_data.length,
         { st1 with recognizer := c, artifact := some c },
         cleanupDir estudiante rutas_procesadas fs)
      | none =>
        let c := clfTrain batch
        if writeOkB then
          (.ok "Modelo entrenado" faces_data.length,
           { st1 with recognizer := c, artifact := some c },
           cleanupDir estudiante rutas_procesadas fs)
        else
          (.exc, { st1 with recognizer := c }, fs)

/-- The combined training batch of `entrenar_modelo_completo`
(lines 262-276): every directory contributes its readable images, and
`label` increments once per directory regardless of content. -/
def fullBatch (fs : FS) : List (Img × Nat) :=
  (fs.enum.map (fun p => (incFaces p.2.2).map (fun i => (i, p.1)))).flatten

/-- Full retrain `entrenar_modelo_completo()` (lines 246-305). `writeOk` is the
outcome of the `face_recognizer.write` at line 289. -/
def entrenar_modelo_completo (writeOk : Bool) (fs : FS) (st : ModelState) :
    TrainOutcome × ModelState × FS :=
  let people_list := fs.map Prod.fst
  if people_list.isEmpty then
    (.fail "No hay personas para entrenar", st, fs)
  else
    let batch := fullBatch fs
    if batch.isEmpty then
      (.fail "No se encontraron imágenes", st, fs)
    else
      let st' : ModelState :=
        { image_paths := people_list,
          label_dict := people_list.enum.map (fun p => (p.2, p.1)),
          next_label := people_list.length,
          recognizer := clfTrain batch,
          artifact := if writeOk then some (clfTrain batch) else st.artifact }
      if writeOk then
        (.ok "Modelo entrenado completo" batch.length, st', [])
      else
        (.exc, st', fs)

/-- One training call in a sequence; each call sees the holding-area
contents current at that moment (enrollments in between may have
changed them). -/
inductive TrainCmd
  | inc (writeOkA writeOkB : Bool) (estudiante : String) (fs : FS)
  | full (writeOk : Bool) (fs : FS)

/-- The holding-area snapshot a command runs against. -/
def TrainCmd.fsOf : TrainCmd → FS
  | .inc _ _ _ fs => fs
  | .full _ fs => fs

/-- Model-state effect of one training call. -/
def runTrainCmd (st : ModelState) : TrainCmd → ModelState
  | .inc oA oB est fs => (entrenar_incremental oA oB est fs st).2.1
  | .full oW fs => (entrenar_modelo_completo oW fs st).2.1

/-- Model-state effect of a sequence of training calls. -/
def runTrainSeq (st : ModelState) (cmds : List TrainCmd) : ModelState :=
  cmds.foldl runTrainCmd st

/-- Structural registry invariant: the label dict is exactly the
enumeration of the identity list, `next_label` is its length, and
identities are pairwise distinct. -/
def registryInv (st : ModelState) : Prop :=
  st.label_dict = st.image_paths.enum.map (fun p => (p.2, p.1)) ∧
  st.next_label = st.image_paths.length ∧
  st.image_paths.Nodup

instance (st : ModelState) : Decidable (registryInv st) := by
  unfold registryInv; infer_instance

/-- Full service state: the model plus the session dedup bookkeeping. -/
structure FullState where
  model : ModelState
  sess : SessionState
deriving DecidableEq, Repr

/-- Session reset `reset_reconocimientos()` (lines 316-319): clears
`estudiantes_reconocidos` and `tiempos_reconocimiento`, nothing else. -/
def reset_reconocimientos (st : FullState) : FullState :=
  { st with sess := { tiempos := [], registrados := [] } }

/-! ## Enrollment (`guardar_foto_registro`) -/

/-- Python `os.path.basename` on a POSIX path: the part after the last `/`. -/
def pyBasename (s : String) : String :=
  String.mk ((s.toList.reverse.takeWhile (fun c => c ≠ '/')).reverse)

/-- The root component of `os.path.splitext(s)` for a bare filename:
drop the last-dot extension, unless every character before the last dot
is itself a dot (CPython's leading-dot rule, so `".bashrc"` keeps its
name). -/
def splitextRoot (s : String) : String :=
  let cs := s.toList
  let ext := cs.reverse.takeWhile (fun c => c ≠ '.')
  if ext.length = cs.length then s
  else
    let root := cs.take (cs.length - ext.length - 1)
    if root.all (fun c => c = '.') then s else String.mk root

/-- Line 149: `estudiante = os.path.splitext(os.path.basename(estudiante))[0]`. -/
def sanitizeName (s : String) : String :=
  splitextRoot (pyBasename s)

/-- Whether `foto_base64.split(',', 1)` succeeds (a missing comma raises
`ValueError`, caught by the `except` at line 159). -/
def hasComma (s : String) : Bool :=
  s.toList.any (fun c => c = ',')

/-- The encoded part after the first comma of the data URL. -/
def afterFirstComma (s : String) : String :=
  String.mk ((s.toList.dropWhile (fun c => c ≠ ',')).drop 1)

/-- Outcome of `guardar_foto_registro`: the ok dict (with `ruta`), the
`{"ok": False, "msg": ...}` dict, or an uncaught exception. -/
inductive GuardarOutcome
  | ok (msg ruta : String)
  | fail (msg : String)
  | exc
deriving DecidableEq, Repr

/-- Type of the composition `base64.b64decode` then `cv2.imdecode` on
the post-comma payload: `.error` = `b64decode` raises (caught by the
`try`), `.ok none` = `imdecode` returns `None`, `.ok (some f)` = a
decoded frame. -/
abbrev B64DecodeFn := String → Except Unit (Option Frame)

/-- Enrollment `guardar_foto_registro(estudiante, foto_base64)` (lines 137-178).
`timestamp` is `int(time.time() * 1000)`. Note `os.makedirs(...,
exist_ok=True)` runs before the decode `try` block. When `imdecode`
yields `None` the subsequent `cv2.cvtColor` raises outside any `try`,
modelled as `.exc`. -/
def guardar_foto_registro (cvt : CvtFn) (detect : DetectFn)
    (resizeF : ResizeFn) (dec : B64DecodeFn) (timestamp : Nat)
    (estudiante foto_base64 : String) (fs : FS) : GuardarOutcome × FS :=
  let est := sanitizeName estudiante
  let fs1 := if (alookup fs est).isSome then fs else fs ++ [(est, [])]
  if hasComma foto_base64 then
    match dec (afterFirstComma foto_base64) with
    | .error _ => (.fail "Error decodificando imagen", fs1)
    | .ok none => (.exc, fs1)
    | .ok (some img) =>
      let gray := cvt img
      match detect gray with
      | [] => (.fail "no face", fs1)
      | b :: _ =>
        let rostro := normEnroll resizeF gray b
        let fname := "rostro_" ++ toString timestamp ++ ".jpg"
        let ruta := est ++ "/" ++ fname
        let fs2 := fs1.map (fun d =>
          if d.1 = est then (d.1, d.2 ++ [(fname, some rostro)]) else d)
        (.ok "guardado" ruta, fs2)
  else
    (.fail "Error decodificando imagen", fs1)

/-! ## Concrete instantiations of the external capabilities

A deterministic test double for detector, classifier and resize, used
to evaluate the embedded code on concrete inputs. -/

/-- A one-pixel test frame. -/
def stubFrame : Frame := [[(0, 0, 0)]]

/-- Deterministic grayscale conversion double. -/
def stubCvt : CvtFn := fun _ => [[0]]

/-- Detector double: always one box. -/
def stubDetect : DetectFn := fun _ => [⟨0, 0, 1, 1⟩]

/-- Detector double: never a box. -/
def stubDetectNone : DetectFn := fun _ => []

/-- Classifier double: always predicts label 0 at distance 0. -/
def stubPredict : PredictFn := fun _ => (0, 0)

/-- Resize double honouring the requested `(width, height)`. -/
def stubResize : ResizeFn := fun _ p _ =>
  List.replicate p.2 (List.replicate p.1 0)

/-- Config double: `confianza_threshold = 1`, `duracion_reconocimiento = 2` (the spec's
dedup scenario window of 2 seconds). -/
def stubCfg : Config := ⟨1, 2⟩

/-- The recognition result reports a recognized identity. -/
def esReconocido : RecogResult → Bool
  | .reconocido _ _ _ => true
  | _ => false

/-- The recognition result reports an unknown face. -/
def esDesconocido : RecogResult → Bool
  | .desconocido _ _ => true
  | _ => false

/-! ## Helper lemmas -/

/-- The result dict of `reconocer_rostro` depends only on the detector,
the predictor and the threshold decision; the dedup bookkeeping never
changes its shape. -/
lemma reconocer_rostro_fst (cvt : CvtFn) (detect : DetectFn)
    (predictF : PredictFn) (resizeF : ResizeFn) (cfg : Config)
    (image_paths : List String) (sess : SessionState) (now : ℚ)
    (frame : Frame) :
    (reconocer_rostro cvt detect predictF resizeF cfg image_paths sess now frame).1
      = match detect (cvt frame) with
        | [] => RecogResult.sin_rostro
        | b :: _ =>
          let pr := predictF (normRecognition resizeF (cvt frame) b)
          if pr.2 < cfg.confianza_threshold ∧ pr.1 < image_paths.length then
            RecogResult.reconocido (image_paths.getD pr.1 "") pr.2 b
          else
            RecogResult.desconocido pr.2 b := by
  rcases h : detect (cvt frame) with _ | ⟨b, rest⟩
  · simp only [reconocer_rostro, h]
  · simp only [reconocer_rostro, h]
    by_cases hc : (predictF (normRecognition resizeF (cvt frame) b)).2
          < cfg.confianza_threshold ∧
        (predictF (normRecognition resizeF (cvt frame) b)).1 < image_paths.length
    · simp only [if_pos hc]
      rcases alookup sess.tiempos
          (image_paths.getD (predictF (normRecognition resizeF (cvt frame) b)).1 "")
        with _ | t0
      · rfl
      · dsimp only
        split
        · split <;> rfl
        · rfl
    · simp only [if_neg hc]

/-- One `reconocer_rostro` call appends its notifications to the
registered set, never notifies an already-registered identity, and
notifies at most one identity. -/
lemma reconocer_rostro_step (cvt : CvtFn) (detect : DetectFn)
    (predictF : PredictFn) (resizeF : ResizeFn) (cfg : Config)
    (image_paths : List String) (sess : SessionState) (now : ℚ)
    (frame : Frame) :
    ((reconocer_rostro cvt detect predictF resizeF cfg image_paths sess now frame).2.1.registrados
        = sess.registrados
          ++ (reconocer_rostro cvt detect predictF resizeF cfg image_paths sess now frame).2.2) ∧
    (∀ n ∈ (reconocer_rostro cvt detect predictF resizeF cfg image_paths sess now frame).2.2,
        n ∉ sess.registrados) ∧
    (reconocer_rostro cvt detect predictF resizeF cfg image_paths sess now frame).2.2.length ≤ 1 := by
  rcases h : detect (cvt frame) with _ | ⟨b, rest⟩
  · simp [reconocer_rostro, h]
  · simp only [reconocer_rostro, h]
    by_cases hc : (predictF (normRecognition resizeF (cvt frame) b)).2
          < cfg.confianza_threshold ∧
        (predictF (normRecognition resizeF (cvt frame) b)).1 < image_paths.length
    · simp only [if_pos hc]
      rcases alookup sess.tiempos
          (image_paths.getD (predictF (normRecognition resizeF (cvt frame) b)).1 "")
        with _ | t0
      · simp
      · dsimp only
        split
        · split
          · simp
          · rename_i hmem
            refine ⟨by simp, ?_, by simp⟩
            intro n hn
            simp only [List.mem_singleton] at hn
            simpa [hn] using hmem
        · simp
    · simp only [if_neg hc]
      simp

/-- An identity already in the registered set is never notified again
during the rest of the session. -/
lemma runRecog_count_zero (cvt : CvtFn) (detect : DetectFn)
    (predictF : PredictFn) (resizeF : ResizeFn) (cfg : Config)
    (image_paths : List String) (name : String) :
    ∀ (obs : List (ℚ × Frame)) (sess : SessionState),
      name ∈ sess.registrados →
      ((runRecog cvt detect predictF resizeF cfg image_paths sess obs).2.flatten.count name)
        = 0 := by
  intro obs
  induction obs with
  | nil => intro sess _; simp [runRecog]
  | cons o rest ih =>
    intro sess hmem
    obtain ⟨hreg, hnotin, _⟩ := reconocer_rostro_step cvt detect predictF
      resizeF cfg image_paths sess o.1 o.2
    have h1 : (reconocer_rostro cvt detect predictF resizeF cfg image_paths
        sess o.1 o.2).2.2.count name = 0 := by
      rw [List.count_eq_zero]
      intro hn
      exact hnotin name hn hmem
    have h2 : name ∈ (reconocer_rostro cvt detect predictF resizeF cfg
        image_paths sess o.1 o.2).2.1.registrados := by
      rw [hreg]; exact List.mem_append_left _ hmem
    simp only [runRecog, List.flatten_cons, List.count_append, h1,
      Nat.zero_add]
    exact ih _ h2

/-- Starting from a session in which `name` is not yet registered, a
whole run of recognitions notifies `name` at most once. -/
lemma runRecog_count_le_one (cvt : CvtFn) (detect : DetectFn)
    (predictF : PredictFn) (resizeF : ResizeFn) (cfg : Config)
    (image_paths : List String) (name : String) :
    ∀ (obs : List (ℚ × Frame)) (sess : SessionState),
      name ∉ sess.registrados →
      ((runRecog cvt detect predictF resizeF cfg image_paths sess obs).2.flatten.count name)
        ≤ 1 := by
  intro obs
  induction obs with
  | nil => intro sess _; simp [runRecog]
  | cons o rest ih =>
    intro sess hnm
    obtain ⟨hreg, _, hlen⟩ := reconocer_rostro_step cvt detect predictF
      resizeF cfg image_paths sess o.1 o.2
    simp only [runRecog, List.flatten_cons, List.count_append]
    by_cases hn : name ∈ (reconocer_rostro cvt detect predictF resizeF cfg
        image_paths sess o.1 o.2).2.2
    · have h2 : name ∈ (reconocer_rostro cvt detect predictF resizeF cfg
          image_paths sess o.1 o.2).2.1.registrados := by
        rw [hreg]; exact List.mem_append_right _ hn
      have htail := runRecog_count_zero cvt detect predictF resizeF cfg
        image_paths name rest _ h2
      have hhead : (reconocer_rostro cvt detect predictF resizeF cfg
          image_paths sess o.1 o.2).2.2.count name ≤ 1 :=
        le_trans (List.count_le_length _ _) hlen
      omega
    · have hhead : (reconocer_rostro cvt detect predictF resizeF cfg
          image_paths sess o.1 o.2).2.2.count name = 0 := by
        rw [List.count_eq_zero]; exact hn
      have h2 : name ∉ (reconocer_rostro cvt detect predictF resizeF cfg
          image_paths sess o.1 o.2).2.1.registrados := by
        rw [hreg]
        intro hmem
        rcases List.mem_append.1 hmem with h | h
        · exact hnm h
        · exact hn h
      have := ih _ h2
      omega

/-- Lookup misses exactly the keys absent from the list. -/
lemma alookup_eq_none {β : Type} (l : List (String × β)) (k : String) :
    alookup l k = none ↔ k ∉ l.map Prod.fst := by
  induction l with
  | nil => simp [alookup]
  | cons p rest ih =>
    by_cases h : p.1 = k
    · simp [alookup, h]
    · simp only [alookup]
      rw [if_neg h]
      simp [ih, Ne.symm h]

/-- Appending a binding for `k` makes `k` found. -/
lemma alookup_append_singleton {β : Type} (l : List (String × β)) (k : String) (v : β) :
    (alookup (l ++ [(k, v)]) k).isSome := by
  induction l with
  | nil => simp [alookup]
  | cons p rest ih =>
    simp only [List.cons_append, alookup]
    split
    · simp
    · exact ih

/-- A map that preserves keys preserves lookup success. -/
lemma alookup_isSome_map {β γ : Type} (g : String × β → String × γ)
    (hg : ∀ d, (g d).1 = d.1) (l : List (String × β)) (k : String) :
    (alookup (l.map g) k).isSome = (alookup l k).isSome := by
  induction l with
  | nil => simp [alookup]
  | cons p rest ih =>
    simp only [List.map_cons, alookup, hg p]
    split
    · simp
    · exact ih

/-- Under the invariant, the dict's keys are exactly the identity list. -/
lemma registryInv_keys {st : ModelState} (h : registryInv st) :
    st.label_dict.map Prod.fst = st.image_paths := by
  rw [h.1, List.map_map]
  have : (Prod.fst ∘ fun p : Nat × String => (p.2, p.1)) = Prod.snd := rfl
  rw [this, List.enum_map_snd]

/-- Label allocation (lines 196-199) preserves the registry invariant. -/
lemma allocLabel_registryInv (est : String) {st : ModelState}
    (h : registryInv st) : registryInv (allocLabel est st) := by
  unfold allocLabel
  split
  · exact h
  · rename_i hnone
    have hn : alookup st.label_dict est = none := by
      cases halo : alookup st.label_dict est
      · rfl
      · rw [halo] at hnone; simp at hnone
    have hnotin : est ∉ st.image_paths := by
      have := (alookup_eq_none st.label_dict est).1 hn
      rwa [registryInv_keys h] at this
    refine ⟨?_, ?_, ?_⟩
    · simp only [h.1, h.2.1]
      rw [List.enum_append]
      simp [List.enumFrom]
    · simp [h.2.1]
    · simp [List.nodup_append, h.2.2, hnotin]

/-- Incremental training leaves the registry either untouched or
exactly as `allocLabel` leaves it; the invariant is preserved. -/
lemma entrenar_incremental_registryInv (oA oB : Bool) (est : String)
    (fs : FS) {st : ModelState} (h : registryInv st) :
    registryInv (entrenar_incremental oA oB est fs st).2.1 := by
  simp only [entrenar_incremental]
  have h1 := allocLabel_registryInv est h
  split
  · exact h
  · split
    · exact h1
    · split
      · exact h1
      · split <;> exact h1

/-- Full retrain either leaves the registry untouched or
rebuilds it from the directory enumeration; the invariant is preserved
when the holding-area directory names are distinct. -/
lemma entrenar_modelo_completo_registryInv (wOk : Bool) (fs : FS)
    {st : ModelState} (hfs : (fs.map Prod.fst).Nodup)
    (h : registryInv st) :
    registryInv (entrenar_modelo_completo wOk fs st).2.1 := by
  simp only [entrenar_modelo_completo]
  split
  · exact h
  · split
    · exact h
    · split <;> exact ⟨rfl, rfl, hfs⟩

/-- The invariant is preserved along any sequence of training calls
whose holding-area snapshots have distinct directory names. -/
lemma runTrainSeq_registryInv :
    ∀ (cmds : List TrainCmd) (st : ModelState),
      registryInv st →
      (∀ c ∈ cmds, ((TrainCmd.fsOf c).map Prod.fst).Nodup) →
      registryInv (runTrainSeq st cmds) := by
  intro cmds
  induction cmds with
  | nil => intro st h _; exact h
  | cons c rest ih =>
    intro st h hwf
    have hc : ((TrainCmd.fsOf c).map Prod.fst).Nodup :=
      hwf c (List.mem_cons_self c rest)
    have hstep : registryInv (runTrainCmd st c) := by
      cases c with
      | inc oA oB est fs => exact entrenar_incremental_registryInv oA oB est fs h
      | full wOk fs => exact entrenar_modelo_completo_registryInv wOk fs hc h
    exact ih _ hstep (fun d hd => hwf d (List.mem_cons_of_mem c hd))

/-- Record updates and `allocLabel` leave the recognizer untouched. -/
lemma allocLabel_recognizer (est : String) (st : ModelState) :
    (allocLabel est st).recognizer = st.recognizer := by
  unfold allocLabel; split <;> rfl

/-- Allocation via `allocLabel` leaves the persisted artifact untouched. -/
lemma allocLabel_artifact (est : String) (st : ModelState) :
    (allocLabel est st).artifact = st.artifact := by
  unfold allocLabel; split <;> rfl

/-! ## Claim theorems -/

/-- C4: the normalization applied on the enrollment path equals the
normalization applied on the recognition path (crop the box from the
grayscale conversion, resize to the canonical 150×150 patch with the
same interpolation policy), so both paths yield identical patches for
identical inputs; and whenever the resize capability honours its
requested output size, the normalized output is always the canonical
150×150 patch regardless of input resolution. -/
theorem c4_normalization_paths_agree :
    (∀ (resizeF : ResizeFn) (gray : Mat) (b : Box),
        normRecognition resizeF gray b = normEnroll resizeF gray b) ∧
    (∀ (resizeF : ResizeFn),
        (∀ (m : Mat) (p : Nat × Nat) (i : Nat), isSize (resizeF m p i) p.1 p.2) →
        ∀ (gray : Mat) (b : Box), isSize (normRecognition resizeF gray b) 150 150) :=
  ⟨fun _ _ _ => rfl, fun _ h gray b => h (cropMat gray b) (150, 150) INTER_CUBIC⟩

/-- Witness for C4 at a concrete resize double, pixel buffer and box. -/
theorem c4_normalization_paths_agree_witness :
    normRecognition stubResize [[1, 2], [3, 4]] ⟨0, 0, 1, 1⟩
        = normEnroll stubResize [[1, 2], [3, 4]] ⟨0, 0, 1, 1⟩ ∧
    isSize (normRecognition stubResize [[1, 2], [3, 4]] ⟨0, 0, 1, 1⟩) 150 150 :=
  ⟨c4_normalization_paths_agree.1 stubResize [[1, 2], [3, 4]] ⟨0, 0, 1, 1⟩,
   c4_normalization_paths_agree.2 stubResize
     (fun m p i => ⟨by simp [stubResize],
       fun row hrow => by rw [List.eq_of_mem_replicate hrow]; simp⟩)
     [[1, 2], [3, 4]] ⟨0, 0, 1, 1⟩⟩

/-- C5: recognize returns the no-face result (`estado = "sin_rostro"`)
iff the detector returns an empty list of boxes. -/
theorem c5_sin_rostro_iff_no_boxes :
    ∀ (cvt : CvtFn) (detect : DetectFn) (predictF : PredictFn)
      (resizeF : ResizeFn) (cfg : Config) (image_paths : List String)
      (sess : SessionState) (now : ℚ) (frame : Frame),
      (reconocer_rostro cvt detect predictF resizeF cfg image_paths sess now frame).1
          = RecogResult.sin_rostro
        ↔ detect (cvt frame) = [] := by
  intro cvt detect predictF resizeF cfg image_paths sess now frame
  rw [reconocer_rostro_fst]
  rcases h : detect (cvt frame) with _ | ⟨b, rest⟩
  · simp
  · simp only
    constructor
    · intro hr
      split at hr <;> cases hr
    · intro hr
      cases hr

/-- C6: for a fixed predicted (label, distance) pair, the recognize
decision is monotone in the acceptance threshold; decreasing
`confianza_threshold` never turns an unknown result into recognized,
and increasing it never turns a recognized result into unknown. -/
theorem c6_threshold_monotone :
    ∀ (cvt : CvtFn) (detect : DetectFn) (predictF : PredictFn)
      (resizeF : ResizeFn) (dur : ℚ) (image_paths : List String)
      (sess : SessionState) (now : ℚ) (frame : Frame) (t t' : ℚ),
      t ≤ t' →
      (esReconocido (reconocer_rostro cvt detect predictF resizeF ⟨t, dur⟩
            image_paths sess now frame).1 = true →
        esReconocido (reconocer_rostro cvt detect predictF resizeF ⟨t', dur⟩
            image_paths sess now frame).1 = true) ∧
      (esDesconocido (reconocer_rostro cvt detect predictF resizeF ⟨t', dur⟩
            image_paths sess now frame).1 = true →
        esDesconocido (reconocer_rostro cvt detect predictF resizeF ⟨t, dur⟩
            image_paths sess now frame).1 = true) := by
  intro cvt detect predictF resizeF dur image_paths sess now frame t t' htt
  rw [reconocer_rostro_fst, reconocer_rostro_fst]
  rcases h : detect (cvt frame) with _ | ⟨b, rest⟩
  · exact ⟨fun hr => hr, fun hr => hr⟩
  · simp only
    constructor
    · intro hrec
      by_cases hc : (predictF (normRecognition resizeF (cvt frame) b)).2 < t ∧
          (predictF (normRecognition resizeF (cvt frame) b)).1 < image_paths.length
      · rw [if_pos ⟨lt_of_lt_of_le hc.1 htt, hc.2⟩]
        rfl
      · rw [if_neg hc] at hrec
        cases hrec
    · intro hdes
      by_cases hc : (predictF (normRecognition resizeF (cvt frame) b)).2 < t ∧
          (predictF (normRecognition resizeF (cvt frame) b)).1 < image_paths.length
      · rw [if_pos ⟨lt_of_lt_of_le hc.1 htt, hc.2⟩] at hdes
        cases hdes
      · rw [if_neg hc]
        rfl

/-- Witness for C6 at a concrete state, with thresholds 1 ≤ 2 and a
prediction at distance 0. -/
theorem c6_threshold_monotone_witness :
    esReconocido (reconocer_rostro stubCvt stubDetect stubPredict stubResize
        ⟨2, 2⟩ ["ana"] ⟨[], []⟩ 0 stubFrame).1 = true :=
  (c6_threshold_monotone stubCvt stubDetect stubPredict stubResize 2 ["ana"]
      ⟨[], []⟩ 0 stubFrame 1 2 (by norm_num)).1
    (by norm_num [reconocer_rostro, normRecognition, stubCvt, stubDetect,
      stubPredict, stubResize, stubFrame, alookup, esReconocido])

/-- C1: within one session the attendance notifier is invoked at most
once per identity; and with `duracion_reconocimiento = 2`, recognitions
of "ana" at t = 0, 1, 2.5 invoke the notifier exactly once, at the
t = 2.5 observation (the first at/after first-seen + window), and a
later recognition (t = 3.5) does not invoke it again. -/
theorem c1_notifier_at_most_once :
    (∀ (cvt : CvtFn) (detect : DetectFn) (predictF : PredictFn)
       (resizeF : ResizeFn) (cfg : Config) (image_paths : List String)
       (sess : SessionState) (obs : List (ℚ × Frame)) (name : String),
       name ∉ sess.registrados →
       ((runRecog cvt detect predictF resizeF cfg image_paths sess obs).2.flatten.count name)
         ≤ 1) ∧
    (runRecog stubCvt stubDetect stubPredict stubResize stubCfg ["ana"]
        ⟨[], []⟩
        [(0, stubFrame), (1, stubFrame), (5/2, stubFrame), (7/2, stubFrame)]).2
      = [[], [], ["ana"], []] := by
  constructor
  · intro cvt detect predictF resizeF cfg image_paths sess obs name hns
    exact runRecog_count_le_one cvt detect predictF resizeF cfg image_paths
      name obs sess hns
  · norm_num [runRecog, reconocer_rostro, normRecognition, stubCvt,
      stubDetect, stubPredict, stubResize, stubCfg, stubFrame, alookup]

/-- Witness for C1: the at-most-once bound instantiated on the concrete
"ana" trace, with the fresh-session hypothesis discharged. -/
theorem c1_notifier_at_most_once_witness :
    ("ana" ∉ (⟨[], []⟩ : SessionState).registrados) ∧
    ((runRecog stubCvt stubDetect stubPredict stubResize stubCfg ["ana"]
        ⟨[], []⟩
        [(0, stubFrame), (1, stubFrame), (5/2, stubFrame), (7/2, stubFrame)]).2.flatten.count "ana")
      ≤ 1 :=
  ⟨by simp,
   c1_notifier_at_most_once.1 stubCvt stubDetect stubPredict stubResize
     stubCfg ["ana"] ⟨[], []⟩
     [(0, stubFrame), (1, stubFrame), (5/2, stubFrame), (7/2, stubFrame)]
     "ana" (by simp)⟩

/-- C9: `reset_reconocimientos` clears the per-identity session dedup
state (timestamps and registered set) while leaving the model state
(classifier, identity list, label dict, next label, artifact)
unchanged; after a reset, re-recognition of a previously registered
identity across the duration window re-triggers the notifier exactly
once more. -/
theorem c9_reset_clears_session :
    (∀ st : FullState,
        (reset_reconocimientos st).model = st.model ∧
        (reset_reconocimientos st).sess.tiempos = [] ∧
        (reset_reconocimientos st).sess.registrados = []) ∧
    (runRecog stubCvt stubDetect stubPredict stubResize stubCfg ["ana"]
        (reset_reconocimientos
          ⟨⟨["ana"], [("ana", 0)], 1, none, none⟩,
           ⟨[("ana", 0)], ["ana"]⟩⟩).sess
        [(10, stubFrame), (12, stubFrame), (13, stubFrame)]).2
      = [[], ["ana"], []] := by
  constructor
  · exact fun st => ⟨rfl, rfl, rfl⟩
  · norm_num [runRecog, reconocer_rostro, reset_reconocimientos,
      normRecognition, stubCvt, stubDetect, stubPredict, stubResize,
      stubCfg, stubFrame, alookup]

/-- C10: enrollment creates the sanitized identity's holding directory
before attempting to decode the image, so the directory exists after
every call, whatever the outcome; in particular a malformed payload
(no comma separator) yields `ok = false` while the per-identity holding
directory exists afterward. -/
theorem c10_enroll_creates_dir_before_decode :
    (∀ (cvt : CvtFn) (detect : DetectFn) (resizeF : ResizeFn)
       (dec : B64DecodeFn) (ts : Nat) (est foto : String) (fs : FS),
       (alookup (guardar_foto_registro cvt detect resizeF dec ts est foto fs).2
          (sanitizeName est)).isSome) ∧
    ((guardar_foto_registro stubCvt stubDetect stubResize
        (fun _ => Except.ok (some stubFrame)) 0 "ana" "malformed-no-comma"
        []).1 = GuardarOutcome.fail "Error decodificando imagen" ∧
     (guardar_foto_registro stubCvt stubDetect stubResize
        (fun _ => Except.ok (some stubFrame)) 0 "ana" "malformed-no-comma"
        []).2 = [("ana", [])]) := by
  constructor
  · intro cvt detect resizeF dec ts est foto fs
    have hfs1 : (alookup
        (if (alookup fs (sanitizeName est)).isSome then fs
         else fs ++ [(sanitizeName est, [])]) (sanitizeName est)).isSome := by
      split
      · rename_i hx
        exact hx
      · exact alookup_append_singleton fs _ _
    simp only [guardar_foto_registro]
    by_cases hcomma : hasComma foto = true
    · rw [if_pos hcomma]
      rcases hdec : dec (afterFirstComma foto) with e | o
      · simp only [hdec]
        exact hfs1
      · rcases o with _ | img
        · simp only [hdec]
          exact hfs1
        · simp only [hdec]
          rcases hdet : detect (cvt img) with _ | ⟨b, rest⟩
          · simp only [hdet]
            exact hfs1
          · simp only [hdet]
            rw [alookup_isSome_map _ (fun d => by split <;> rfl)]
            exact hfs1
    · rw [if_neg hcomma]
      exact hfs1
  · exact ⟨by rfl, by rfl⟩

/-- C2 counterexample: `entrenar_incremental` for a new identity whose
holding directory exists but holds no readable image returns a failure
result, yet the identity registry has been mutated — "bob" was
allocated label 1, appended to the identity list and `next_label`
incremented — so a failed training operation does not leave the prior
model state entirely unchanged. -/
theorem c2_failure_mutates_registry_counterexample :
    (entrenar_incremental true true "bob" [("bob", [])]
        ⟨["ana"], [("ana", 0)], 1, some [([[7]], 0)], some (some [([[7]], 0)])⟩).1
      = TrainOutcome.fail "No hay imágenes para entrenar" ∧
    (entrenar_incremental true true "bob" [("bob", [])]
        ⟨["ana"], [("ana", 0)], 1, some [([[7]], 0)], some (some [([[7]], 0)])⟩).2.1
      ≠ (⟨["ana"], [("ana", 0)], 1, some [([[7]], 0)], some (some [([[7]], 0)])⟩ : ModelState) ∧
    (entrenar_incremental true true "bob" [("bob", [])]
        ⟨["ana"], [("ana", 0)], 1, some [([[7]], 0)], some (some [([[7]], 0)])⟩).2.1.label_dict
      = [("ana", 0), ("bob", 1)] := by
  refine ⟨by decide, by decide, by decide⟩

/-- C2 amended: on a failure result, `entrenar_modelo_completo` leaves
model state and holding areas entirely unchanged; on a failure result,
`entrenar_incremental` leaves the classifier, the persisted artifact
and the holding areas unchanged, and leaves the registry unchanged
except that when the identity was not yet enrolled (and its directory
existed but held no readable image) the failing call has already
allocated it a label, exactly as `allocLabel` does. -/
theorem c2_failure_state_amended :
    ∀ (oA oB wOk : Bool) (est : String) (fs : FS) (st : ModelState)
      (msg : String),
      ((entrenar_modelo_completo wOk fs st).1 = TrainOutcome.fail msg →
        (entrenar_modelo_completo wOk fs st).2.1 = st ∧
        (entrenar_modelo_completo wOk fs st).2.2 = fs) ∧
      ((entrenar_incremental oA oB est fs st).1 = TrainOutcome.fail msg →
        (entrenar_incremental oA oB est fs st).2.1.recognizer = st.recognizer ∧
        (entrenar_incremental oA oB est fs st).2.1.artifact = st.artifact ∧
        (entrenar_incremental oA oB est fs st).2.2 = fs ∧
        ((entrenar_incremental oA oB est fs st).2.1 = st ∨
          (alookup st.label_dict est = none ∧
           (entrenar_incremental oA oB est fs st).2.1 = allocLabel est st))) := by
  intro oA oB wOk est fs st msg
  constructor
  · simp only [entrenar_modelo_completo]
    split
    · exact fun _ => ⟨rfl, rfl⟩
    · split
      · exact fun _ => ⟨rfl, rfl⟩
      · split <;> exact fun h => absurd h (by simp)
  · simp only [entrenar_incremental]
    split
    · exact fun _ => ⟨rfl, rfl, rfl, Or.inl rfl⟩
    · split
      · intro _
        refine ⟨allocLabel_recognizer est st, allocLabel_artifact est st, rfl, ?_⟩
        by_cases hl : (alookup st.label_dict est).isSome
        · left
          unfold allocLabel
          rw [if_pos hl]
        · right
          exact ⟨Option.not_isSome_iff_eq_none.1 hl, rfl⟩
      · split
        · exact fun h => absurd h (by simp)
        · split <;> exact fun h => absurd h (by simp)

/-- Witness for C2's amended statement at the concrete failing call. -/
theorem c2_failure_state_amended_witness :
    (entrenar_incremental true true "bob" [("bob", [])]
        ⟨["ana"], [("ana", 0)], 1, some [([[7]], 0)], some (some [([[7]], 0)])⟩).2.1.recognizer
      = some [([[7]], 0)] ∧
    (entrenar_incremental true true "bob" [("bob", [])]
        ⟨["ana"], [("ana", 0)], 1, some [([[7]], 0)], some (some [([[7]], 0)])⟩).2.1.artifact
      = some (some [([[7]], 0)]) ∧
    (entrenar_incremental true true "bob" [("bob", [])]
        ⟨["ana"], [("ana", 0)], 1, some [([[7]], 0)], some (some [([[7]], 0)])⟩).2.2
      = [("bob", [])] ∧
    ((entrenar_incremental true true "bob" [("bob", [])]
        ⟨["ana"], [("ana", 0)], 1, some [([[7]], 0)], some (some [([[7]], 0)])⟩).2.1
      = (⟨["ana"], [("ana", 0)], 1, some [([[7]], 0)], some (some [([[7]], 0)])⟩ : ModelState) ∨
      (alookup ([("ana", 0)] : List (String × Nat)) "bob" = none ∧
       (entrenar_incremental true true "bob" [("bob", [])]
          ⟨["ana"], [("ana", 0)], 1, some [([[7]], 0)], some (some [([[7]], 0)])⟩).2.1
        = allocLabel "bob"
            ⟨["ana"], [("ana", 0)], 1, some [([[7]], 0)], some (some [([[7]], 0)])⟩)) :=
  (c2_failure_state_amended true true true "bob" [("bob", [])]
      ⟨["ana"], [("ana", 0)], 1, some [([[7]], 0)], some (some [([[7]], 0)])⟩
      "No hay imágenes para entrenar").2 (by decide)

/-- C7 counterexample: with an initialized classifier (prior learned
state for "ana") and a persistence failure at the write inside the
`try` block, `entrenar_incremental` does not propagate a structured
failure — the bare `except:` catches the write error, falls back to
`train` on the current batch only (discarding the prior identity's
learned state), and the call reports success. -/
theorem c7_fallback_on_write_failure_counterexample :
    (entrenar_incremental false true "bob" [("bob", [("f1", some [[9]])])]
        ⟨["ana"], [("ana", 0)], 1, some [([[7]], 0)], some (some [([[7]], 0)])⟩).1
      = TrainOutcome.ok "Modelo entrenado" 1 ∧
    (entrenar_incremental false true "bob" [("bob", [("f1", some [[9]])])]
        ⟨["ana"], [("ana", 0)], 1, some [([[7]], 0)], some (some [([[7]], 0)])⟩).2.1.recognizer
      = some [([[9]], 1)] ∧
    (⟨["ana"], [("ana", 0)], 1, some [([[7]], 0)], some (some [([[7]], 0)])⟩ : ModelState).recognizer
      = some [([[7]], 0)] := by
  refine ⟨by decide, by decide, by decide⟩

/-- C7 amended: the fallback from `update` to `train` occurs whenever
anything in the `try` block raises — either because the classifier has
no prior learned state, or because the artifact write after a
successful `update` fails; a persistence failure in the `try` block
therefore triggers the train fallback instead of propagating, and only
a failure of the write in the fallback branch itself propagates (as an
uncaught exception). -/
theorem c7_fallback_amended :
    ∀ (oA oB : Bool) (est : String) (fs : FS) (st : ModelState)
      (files : List (String × Option Img)),
      alookup fs est = some files →
      incFaces files ≠ [] →
      ((∀ d, st.recognizer = some d → oA = true →
          (entrenar_incremental oA oB est fs st).1
              = TrainOutcome.ok "Modelo entrenado" (incFaces files).length ∧
          (entrenar_incremental oA oB est fs st).2.1.recognizer
              = some (d ++ (incFaces files).map (fun i =>
                  (i, (alookup (allocLabel est st).label_dict est).getD 0)))) ∧
       ((st.recognizer = none ∨ oA = false) →
          (entrenar_incremental oA oB est fs st).2.1.recognizer
              = clfTrain ((incFaces files).map (fun i =>
                  (i, (alookup (allocLabel est st).label_dict est).getD 0))) ∧
          (oB = true → (entrenar_incremental oA oB est fs st).1
              = TrainOutcome.ok "Modelo entrenado" (incFaces files).length) ∧
          (oB = false → (entrenar_incremental oA oB est fs st).1
              = TrainOutcome.exc))) := by
  intro oA oB est fs st files hfs hne
  have hnemp : (incFaces files).isEmpty = false := by
    cases h : incFaces files
    · exact absurd h hne
    · rfl
  constructor
  · intro d hd hA
    subst hA
    simp [entrenar_incremental, hfs, hnemp, allocLabel_recognizer, hd, clfUpdate]
  · intro hor
    rcases hor with hnone | hA
    · simp only [entrenar_incremental, hfs, hnemp, Bool.false_eq_true,
        if_false, allocLabel_recognizer, hnone, clfUpdate]
      refine ⟨?_, ?_, ?_⟩
      · cases oB <;> rfl
      · intro hB; subst hB; rfl
      · intro hB; subst hB; rfl
    · subst hA
      cases hrec : st.recognizer with
      | none =>
        simp only [entrenar_incremental, hfs, hnemp, Bool.false_eq_true,
          if_false, allocLabel_recognizer, hrec, clfUpdate]
        refine ⟨?_, ?_, ?_⟩
        · cases oB <;> rfl
        · intro hB; subst hB; rfl
        · intro hB; subst hB; rfl
      | some d =>
        simp only [entrenar_incremental, hfs, hnemp, Bool.false_eq_true,
          if_false, allocLabel_recognizer, hrec, clfUpdate]
        refine ⟨?_, ?_, ?_⟩
        · cases oB <;> rfl
        · intro hB; subst hB; rfl
        · intro hB; subst hB; rfl

/-- Witness for C7's amended statement: the uninitialized-classifier
fallback succeeds on a concrete call. -/
theorem c7_fallback_amended_witness :
    (entrenar_incremental true true "ana" [("ana", [("f1", some [[3]])])]
        ⟨[], [], 0, none, none⟩).2.1.recognizer
      = clfTrain ((incFaces [("f1", some [[3]])]).map (fun i =>
          (i, (alookup (allocLabel "ana" ⟨[], [], 0, none, none⟩).label_dict
                "ana").getD 0))) ∧
    (entrenar_incremental true true "ana" [("ana", [("f1", some [[3]])])]
        ⟨[], [], 0, none, none⟩).1
      = TrainOutcome.ok "Modelo entrenado" 1 :=
  ⟨((c7_fallback_amended true true "ana" [("ana", [("f1", some [[3]])])]
      ⟨[], [], 0, none, none⟩ [("f1", some [[3]])] (by decide) (by decide)).2
      (Or.inl rfl)).1,
   ((c7_fallback_amended true true "ana" [("ana", [("f1", some [[3]])])]
      ⟨[], [], 0, none, none⟩ [("f1", some [[3]])] (by decide) (by decide)).2
      (Or.inl rfl)).2.1 rfl⟩

/-- C8 counterexample: `entrenar_modelo_completo` with an empty holding
directory "a" and a non-empty one "b" succeeds, and "a" — whose
holding area contains no readable image — still receives label 0 and a
registry entry: the enumeration covers all directories, not only the
non-empty ones. -/
theorem c8_full_retrain_empty_dir_counterexample :
    (entrenar_modelo_completo true [("a", []), ("b", [("f", some [[5]])])]
        ⟨[], [], 0, none, none⟩).1
      = TrainOutcome.ok "Modelo entrenado completo" 1 ∧
    (entrenar_modelo_completo true [("a", []), ("b", [("f", some [[5]])])]
        ⟨[], [], 0, none, none⟩).2.1.image_paths = ["a", "b"] ∧
    (entrenar_modelo_completo true [("a", []), ("b", [("f", some [[5]])])]
        ⟨[], [], 0, none, none⟩).2.1.label_dict = [("a", 0), ("b", 1)] := by
  refine ⟨by decide, by decide, by decide⟩

/-- C8 amended: `entrenar_modelo_completo` enumerates all per-identity
holding directories, empty or not; it fails when there are no
directories at all, or when no directory contributes a readable image;
on success it rebuilds the registry from scratch assigning sequential
labels 0, 1, 2, ... in enumeration order to every enumerated
directory — including identities whose holding areas contain no
readable images — and deletes every holding area. -/
theorem c8_full_retrain_amended :
    ∀ (wOk : Bool) (fs : FS) (st : ModelState),
      (fs = [] → (entrenar_modelo_completo wOk fs st).1
          = TrainOutcome.fail "No hay personas para entrenar") ∧
      (fs ≠ [] → fullBatch fs = [] →
        (entrenar_modelo_completo wOk fs st).1
          = TrainOutcome.fail "No se encontraron imágenes") ∧
      (fullBatch fs ≠ [] → wOk = true →
        (entrenar_modelo_completo wOk fs st).1
            = TrainOutcome.ok "Modelo entrenado completo" (fullBatch fs).length ∧
        (entrenar_modelo_completo wOk fs st).2.1.image_paths = fs.map Prod.fst ∧
        (entrenar_modelo_completo wOk fs st).2.1.label_dict
            = (fs.map Prod.fst).enum.map (fun p => (p.2, p.1)) ∧
        (entrenar_modelo_completo wOk fs st).2.1.next_label = fs.length ∧
        (entrenar_modelo_completo wOk fs st).2.2 = []) := by
  intro wOk fs st
  refine ⟨?_, ?_, ?_⟩
  · intro hfs
    subst hfs
    rfl
  · intro hfs hb
    have h1 : (fs.map Prod.fst).isEmpty = false := by
      cases fs
      · exact absurd rfl hfs
      · rfl
    simp [entrenar_modelo_completo, h1, hb]
  · intro hb hW
    subst hW
    have h1 : (fs.map Prod.fst).isEmpty = false := by
      cases fs
      · exact absurd (by decide : fullBatch [] = []) hb
      · rfl
    have h2 : (fullBatch fs).isEmpty = false := by
      cases h : fullBatch fs
      · exact absurd h hb
      · rfl
    simp only [entrenar_modelo_completo, h1, h2, Bool.false_eq_true,
      if_false]
    exact ⟨rfl, rfl, rfl, by simp, rfl⟩

/-- Witness for C8's amended statement at the counterexample input. -/
theorem c8_full_retrain_amended_witness :
    (entrenar_modelo_completo true [("a", []), ("b", [("f", some [[5]])])]
        ⟨[], [], 0, none, none⟩).1
      = TrainOutcome.ok "Modelo entrenado completo"
          (fullBatch [("a", []), ("b", [("f", some [[5]])])]).length ∧
    (entrenar_modelo_completo true [("a", []), ("b", [("f", some [[5]])])]
        ⟨[], [], 0, none, none⟩).2.1.image_paths
      = ([("a", []), ("b", [("f", some [[5]])])] : FS).map Prod.fst ∧
    (entrenar_modelo_completo true [("a", []), ("b", [("f", some [[5]])])]
        ⟨[], [], 0, none, none⟩).2.1.label_dict
      = (([("a", []), ("b", [("f", some [[5]])])] : FS).map Prod.fst).enum.map
          (fun p => (p.2, p.1)) ∧
    (entrenar_modelo_completo true [("a", []), ("b", [("f", some [[5]])])]
        ⟨[], [], 0, none, none⟩).2.1.next_label
      = ([("a", []), ("b", [("f", some [[5]])])] : FS).length ∧
    (entrenar_modelo_completo true [("a", []), ("b", [("f", some [[5]])])]
        ⟨[], [], 0, none, none⟩).2.2 = [] :=
  (c8_full_retrain_amended true [("a", []), ("b", [("f", some [[5]])])]
      ⟨[], [], 0, none, none⟩).2.2 (by decide) rfl

/-- C3: after every sequence of `entrenar_incremental` and
`entrenar_modelo_completo` calls (each against a holding-area snapshot
with distinct directory names), starting from a state satisfying the
registry invariant, the invariant still holds: labels are the
contiguous range `[0, len identities)` (hence unique), each identity's
label equals its index in the ordered identity list, and `next_label`
equals the length of that list. -/
theorem c3_registry_invariant_preserved :
    ∀ (cmds : List TrainCmd) (st : ModelState),
      registryInv st →
      (∀ c ∈ cmds, ((TrainCmd.fsOf c).map Prod.fst).Nodup) →
      registryInv (runTrainSeq st cmds) ∧
      (runTrainSeq st cmds).next_label
          = (runTrainSeq st cmds).image_paths.length ∧
      (runTrainSeq st cmds).label_dict.map Prod.snd
          = List.range (runTrainSeq st cmds).image_paths.length ∧
      ((runTrainSeq st cmds).label_dict.map Prod.snd).Nodup ∧
      (∀ i (hi : i < (runTrainSeq st cmds).image_paths.length),
        ((runTrainSeq st cmds).image_paths.get ⟨i, hi⟩, i)
          ∈ (runTrainSeq st cmds).label_dict) := by
  intro cmds st h hwf
  have hinv := runTrainSeq_registryInv cmds st h hwf
  have hsnd : (runTrainSeq st cmds).label_dict.map Prod.snd
      = List.range (runTrainSeq st cmds).image_paths.length := by
    rw [hinv.1, List.map_map]
    have hcomp : (Prod.snd ∘ fun p : Nat × String => (p.2, p.1)) = Prod.fst :=
      rfl
    rw [hcomp, List.enum_map_fst]
  refine ⟨hinv, hinv.2.1, hsnd, ?_, ?_⟩
  · rw [hsnd]
    exact List.nodup_range _
  · intro i hi
    rw [hinv.1]
    refine List.mem_map.2
      ⟨(i, (runTrainSeq st cmds).image_paths.get ⟨i, hi⟩), ?_, rfl⟩
    rw [List.mk_mem_enum_iff_getElem?]
    exact List.getElem?_eq_getElem hi

/-- Witness for C3 on a concrete sequence: one incremental training of
"ana" followed by a full retrain over the directory "b". -/
theorem c3_registry_invariant_preserved_witness :
    registryInv (runTrainSeq ⟨[], [], 0, none, none⟩
      [TrainCmd.inc true true "ana" [("ana", [("f", some [[1]])])],
       TrainCmd.full true [("b", [("g", some [[2]])])]]) :=
  (c3_registry_invariant_preserved
    [TrainCmd.inc true true "ana" [("ana", [("f", some [[1]])])],
     TrainCmd.full true [("b", [("g", some [[2]])])]]
    ⟨[], [], 0, none, none⟩ (by decide) (by decide)).1

end RegistroPGC
